import Mathlib

/-!
# HedgePy: verification of the specification against the source

Shallow embedding of the HedgePy broker (Python) in Lean 4, covering the
components the specification's claims are about:

* `RateLimit`   — `RateLimiter` decorator, `src/hedgepy/common/bases/API.py` 252-273
* `Chunk`       — `TimeChunker` decorator, `src/hedgepy/common/bases/API.py` 276-337
* `DtCodec`     — date/duration codec, `src/hedgepy/common/utils/dtwrapper.py`
* `CovDiff`     — coverage diff, `src/hedgepy/server/routines/diff.py`
* `Pipeline`    — server cycle and HTTP GET handler, `src/hedgepy/server/bases/Server.py`
* `Broker`      — IBKR TCP client state machine, `src/hedgepy/common/vendors/ibkr/bases.py`
* `Plan`        — endpoint selection, `src/hedgepy/server/routines/plan.py`
* `Ctx`         — `Context` immutability, `src/hedgepy/common/bases/API.py` 46-71

Times and durations are embedded as integer seconds.  Python `dict`s are
embedded as insertion-ordered association lists, exceptions as `Except`.
-/

set_option autoImplicit false

namespace HedgePy

/-! ## Association-list helpers (Python `dict` semantics: insertion order,
assignment overwrites in place, new keys append at the end). -/

/-- Python `k in d`. -/
def dictHas {K V : Type} [DecidableEq K] (d : List (K × V)) (k : K) : Bool :=
  d.any (fun p => p.1 = k)

/-- Python `d.get(k)` / `d[k]` as an `Option`. -/
def dictGet {K V : Type} [DecidableEq K] (d : List (K × V)) (k : K) : Option V :=
  (d.find? (fun p => p.1 = k)).map Prod.snd

/-- Python `d[k] = v`: overwrite the first binding of `k` in place, else append. -/
def dictSet {K V : Type} [DecidableEq K] (d : List (K × V)) (k : K) (v : V) :
    List (K × V) :=
  match d with
  | [] => [(k, v)]
  | (k₀, v₀) :: rest =>
      if k₀ = k then (k₀, v) :: rest else (k₀, v₀) :: dictSet rest k v

/-! ## Data model (API.py 74-176)

`RequestParams` carries `start`, `end`, `resolution`, `symbol`; `Request`
carries `vendor`, `endpoint`, `params`, `corr_id` (set server-side);
`Response` carries the request and optional tabular data.  Times are integer
seconds; `end` is named `stop` (`end` is reserved in Lean). -/

structure Params where
  start : Int
  stop : Option Int
  resolution : Int
  symbol : String
  deriving DecidableEq, Repr

structure Request where
  vendor : String
  endpoint : String
  params : Params
  corr_id : Option Nat
  deriving DecidableEq, Repr

structure Response where
  request : Request
  data : Option (List (List Int)) := none
  deriving DecidableEq, Repr

/-! ## `TimeChunker` (API.py 276-337)

```python
class TimeChunker(Getter):
    def __init__(self, target, chunk_schedule, corr_id_fn):
        self.chunk_schedule = dict(zip(map(str_to_td, chunk_schedule.keys()),
                                       map(str_to_td, chunk_schedule.values())))
        self._corr_id_fn = corr_id_fn

    async def _chunk(self, app, request, context, n_chunks, max_duration):
        responses = {}
        corr_id, request_start = request.corr_id, request.params.start
        request_end = request_start + max_duration
        for _ in range(n_chunks - 1):
            request = Request(corr_id=corr_id, vendor=request.vendor,
                endpoint=request.endpoint,
                params=RequestParams(start=request_start, end=request_end,
                    resolution=request.params.resolution,
                    symbol=request.params.symbol))
            responses[request.corr_id] = await self.target(app, request, context)
            request_start = request_end + request.params.resolution
            request_end = request_start + max_duration
            corr_id = self._corr_id_fn(app)
        stub_request = Request(corr_id=corr_id, vendor=request.vendor,
            endpoint=request.endpoint,
            params=RequestParams(start=request_end + request.params.resolution,
                end=request.params.end, resolution=request.params.resolution,
                symbol=request.params.symbol))
        responses[stub_request.corr_id] = await self.target(app, stub_request, context)
        return responses

    async def __call__(self, app, request, context):
        request_end = request.params.end if request.params.end else timestamp()
        request_duration = request_end - request.params.start
        responses = None
        for resolution, max_duration in self.chunk_schedule.items():
            if request.params.resolution <= resolution:
                if (n_chunks := request_duration // max_duration) > 1:
                    responses = await self._chunk(app, request, context,
                                                  n_chunks, max_duration)
        if not responses:
            responses = await self.target(app, request, context)
        return responses
```

Note that inside `_chunk` the name `request` is rebound to the chunk request
on every loop iteration, so the stub request reads `request.params.end` from
the *last chunk*, not from the original request.  The broker vendor's
`corr_id_fn` is a monotonic counter on its app; it is embedded as
`corrIdFn n = (n, n + 1)` with the counter threaded through. -/

namespace Chunk

/-- A getter target: `(app, request, context) -> Response`; `app` and
`context` do not influence the aspects under test, so a target is
`Request → Response`. -/
abbrev Target := Request → Response

/-- The broker's monotonic corr-id allocator acting on the app counter. -/
def corrIdFn (app : Nat) : Nat × Nat := (app, app + 1)

/-- State threaded through the `for _ in range(n_chunks - 1)` loop of
`TimeChunker._chunk`: the (rebound) `request`, the `corr_id`, `request_start`
and `request_end` variables, the app counter and the `responses` dict. -/
structure LoopState where
  req : Request
  cid : Option Nat
  rs : Int
  re : Int
  app : Nat
  responses : List (Option Nat × Response)

/-- Loop body of `_chunk`, iterated `n_chunks - 1` times. -/
def chunkLoop (target : Target) (maxDur : Int) : Nat → LoopState → LoopState
  | 0, st => st
  | n + 1, st =>
      let req' : Request :=
        { vendor := st.req.vendor, endpoint := st.req.endpoint,
          params := { start := st.rs, stop := some st.re,
                      resolution := st.req.params.resolution,
                      symbol := st.req.params.symbol },
          corr_id := st.cid }
      let responses' := dictSet st.responses req'.corr_id (target req')
      let rs' := st.re + req'.params.resolution
      let re' := rs' + maxDur
      let c := corrIdFn st.app
      chunkLoop target maxDur n
        { req := req', cid := some c.1, rs := rs', re := re', app := c.2,
          responses := responses' }

/-- `TimeChunker._chunk` (API.py 284-321): returns the `responses` dict and
the final app counter. -/
def chunk (target : Target) (app : Nat) (request : Request) (nChunks : Nat)
    (maxDur : Int) : List (Option Nat × Response) × Nat :=
  let st₀ : LoopState :=
    { req := request, cid := request.corr_id, rs := request.params.start,
      re := request.params.start + maxDur, app := app, responses := [] }
  let st := chunkLoop target maxDur (nChunks - 1) st₀
  let stub : Request :=
    { vendor := st.req.vendor, endpoint := st.req.endpoint,
      params := { start := st.re + st.req.params.resolution,
                  stop := st.req.params.stop,
                  resolution := st.req.params.resolution,
                  symbol := st.req.params.symbol },
      corr_id := st.cid }
  (dictSet st.responses stub.corr_id (target stub), st.app)

/-- Result of `TimeChunker.__call__`: either the single target `Response`
(no chunking) or the raw dict of sub-responses produced by `_chunk`. -/
inductive CallResult
  | single (r : Response)
  | chunked (d : List (Option Nat × Response))
  deriving DecidableEq, Repr

/-- Python truthiness of the `responses` variable at API.py 334:
`None` and the empty dict are falsy. -/
def falsy : Option (List (Option Nat × Response)) → Bool
  | none => true
  | some [] => true
  | some (_ :: _) => false

/-- `TimeChunker.__call__` (API.py 323-337).  `schedule` is the converted
`chunk_schedule` (resolution ↦ max duration, insertion-ordered); `now` stands
for `dtwrapper.timestamp()` when `request.params.end` is unset.  The loop runs
`_chunk` once per schedule entry whose resolution is ≥ the request's
(overwriting `responses` each time), exactly as the source does. -/
def call (schedule : List (Int × Int)) (target : Target) (now : Int)
    (app : Nat) (request : Request) : CallResult × Nat :=
  let requestEnd := match request.params.stop with
    | some e => e
    | none => now
  let requestDuration := requestEnd - request.params.start
  let loopOut := schedule.foldl
    (fun (acc : Option (List (Option Nat × Response)) × Nat) entry =>
      if request.params.resolution ≤ entry.1 then
        let nChunks := Int.fdiv requestDuration entry.2
        if nChunks > 1 then
          let r := chunk target acc.2 request nChunks.toNat entry.2
          (some r.1, r.2)
        else acc
      else acc)
    (none, app)
  if falsy loopOut.1 then (.single (target request), loopOut.2)
  else (.chunked (loopOut.1.getD []), loopOut.2)

/-- The `(start, end)` windows of the dispatched sub-requests, in dict order. -/
def windows (d : List (Option Nat × Response)) : List (Int × Option Int) :=
  d.map (fun p => (p.2.request.params.start, p.2.request.params.stop))

/-- A target that just records the request it was invoked with. -/
def echoTarget : Target := fun req =>
  { request := req, data := some [[req.params.start, req.params.stop.getD (-1)]] }

/-- The request of the C1 scenario: `[start, end] = [0, 7]`, resolution 1,
original corr id 100, against `chunk_schedule` `{1: 2}` (cap 2 seconds). -/
def req₁ : Request :=
  { vendor := "v", endpoint := "e",
    params := { start := 0, stop := some 7, resolution := 1, symbol := "x" },
    corr_id := some 100 }

/-- Whether `__call__` produced a single (merged) `Response`. -/
def isSingle : CallResult → Bool
  | .single _ => true
  | .chunked _ => false

/-- The sub-response dict of a chunked result (empty for a single response). -/
def chunkedDict : CallResult → List (Option Nat × Response)
  | .single _ => []
  | .chunked d => d

end Chunk

/-! ## `RateLimiter` (API.py 252-273)

```python
class RateLimiter(Getter):
    def __init__(self, target, max_requests, interval):
        self.interval = dtwrapper.str_to_td(interval).total_seconds()
        self.history = deque(maxlen=max_requests)
    async def __call__(self, app, request, context):
        time = dtwrapper.now()
        try:
            elapsed = time - self.history.popleft()
        except IndexError:
            elapsed = self.interval
        if elapsed < self.interval:
            sleep_time = self.interval - elapsed
            await asyncio.sleep(sleep_time)
        response = await self.target.__call__(app, request, context)
        self.history.append(time)
        return response
```

The state is the deque contents (oldest first).  One call: record entry time
`time`, pop the oldest retained timestamp (destructively), sleep if it is
within `interval`, invoke the target, then append the *entry* time (not the
post-sleep invocation time).  `deque(maxlen=n)` drops from the left when an
append overflows. -/

namespace RateLimit

/-- `deque(maxlen=maxlen).append(t)` on contents `l` (oldest first). -/
def dequePush (maxlen : Nat) (l : List Int) (t : Int) : List Int :=
  let l' := l ++ [t]
  if maxlen < l'.length then l'.drop (l'.length - maxlen) else l'

/-- One `RateLimiter.__call__` at entry time `entry` with history `hist`:
returns the time the underlying getter is invoked (entry plus any sleep) and
the new history.  Mirrors the source line by line: `popleft` on an empty deque
raises `IndexError`, caught to set `elapsed = interval` (no sleep). -/
def step (interval : Int) (maxlen : Nat) (hist : List Int) (entry : Int) :
    Int × List Int :=
  match hist with
  | [] => (entry, dequePush maxlen [] entry)
  | oldest :: rest =>
      let elapsed := entry - oldest
      let inv := if elapsed < interval then entry + (interval - elapsed) else entry
      (inv, dequePush maxlen rest entry)

/-- Run a sequence of calls entering at the given times; returns the
invocation times of the underlying getter. -/
def run (interval : Int) (maxlen : Nat) (hist : List Int) : List Int → List Int
  | [] => []
  | e :: es =>
      let s := step interval maxlen hist e
      s.1 :: run interval maxlen s.2 es

/-- Number of invocations falling in the half-open window `[w0, w0 + d)`. -/
def countWindow (invs : List Int) (w0 d : Int) : Nat :=
  (invs.filter (fun t => decide (w0 ≤ t) && decide (t < w0 + d))).length

/-- A trace is sequential when each call enters no earlier than the previous
invocation completed (the pipeline awaits each getter call). -/
def sequentialFrom (interval : Int) (maxlen : Nat) (hist : List Int) :
    List Int → Bool
  | [] => true
  | [_] => true
  | e₁ :: e₂ :: es =>
      let s := step interval maxlen hist e₁
      decide (s.1 ≤ e₂) && sequentialFrom interval maxlen s.2 (e₂ :: es)

end RateLimit

/-! ## Date/duration codec (`dtwrapper.py`)

Strings are embedded as lists of character codes (`Str`).  `str_to_dt` /
`dt_to_str` use the fixed format `%Y-%m-%dT%H:%M:%S`; `datetime.strptime`
matches `%Y` against exactly four digits, `%m`/`%d`/`%H`/`%M`/`%S` against
two, and the `datetime` constructor validates the field ranges (proleptic
Gregorian calendar).  `strftime` zero-pads two-digit fields; a year below
1000 is not printed as four digits, so it is not *expressible* in the format
(`expressible` below adds `1000 ≤ year` on top of the constructor bounds).

`td_to_str` (dtwrapper.py 86-119) converts the timedelta to a fractional day
count `td.days + td.seconds / 86400` and then peels off units by `divmod`
with unit sizes 365, 365/12, 365/52 and 1 days; `str_to_td`
(dtwrapper.py 73-83) parses the ISO-8601-like duration with `re.match`
(anchored at the start only, trailing input ignored) and rebuilds a timedelta
as `datetime(years+1, months+1, days + 7*weeks + 8, hours+1, minutes+1,
seconds+1) - datetime(1, 1, 8, 1, 1, 1)`, so a week is 7 days on the parse
side but 365/52 days on the emit side.  Python float arithmetic is embedded
as exact rational arithmetic; the concrete inputs used in the theorems below
stay far from rounding boundaries, where the two agree.  A timedelta of `t`
whole seconds is embedded as `t : Int`; then `td.days + td.seconds / 86400 =
t / 86400` exactly. -/

namespace DtCodec

/-- A string as a list of character codes. -/
abbrev Str := List Nat

/-- Character codes of a Lean string literal (used to write readable inputs). -/
def ofString (s : String) : Str := s.data.map Char.toNat

/-- Proleptic Gregorian leap year, as in Python's `datetime`. -/
def isLeap (y : Nat) : Bool :=
  y % 4 = 0 && (y % 100 ≠ 0 || y % 400 = 0)

/-- Days in a month, as validated by the `datetime` constructor. -/
def daysInMonth (y m : Nat) : Nat :=
  if m = 2 then (if isLeap y then 29 else 28)
  else if m = 4 ∨ m = 6 ∨ m = 9 ∨ m = 11 then 30
  else 31

structure DT where
  year : Nat
  month : Nat
  day : Nat
  hour : Nat
  minute : Nat
  second : Nat
  deriving DecidableEq, Repr

/-- The `datetime` constructor's bounds (`MINYEAR = 1`, `MAXYEAR = 9999`). -/
def validDT (dt : DT) : Bool :=
  decide (1 ≤ dt.year) && decide (dt.year ≤ 9999) &&
  decide (1 ≤ dt.month) && decide (dt.month ≤ 12) &&
  decide (1 ≤ dt.day) && decide (dt.day ≤ daysInMonth dt.year dt.month) &&
  decide (dt.hour ≤ 23) && decide (dt.minute ≤ 59) && decide (dt.second ≤ 59)

/-- Expressible in `%Y-%m-%dT%H:%M:%S`: constructor-valid and the year prints
as exactly four digits. -/
def expressible (dt : DT) : Bool :=
  validDT dt && decide (1000 ≤ dt.year)

/-- Two-digit zero-padded decimal (`strftime` `%m`, `%d`, `%H`, `%M`, `%S`). -/
def pad2 (n : Nat) : Str := [48 + n / 10, 48 + n % 10]

/-- Four-digit decimal (`strftime` `%Y` for years ≥ 1000). -/
def pad4 (n : Nat) : Str :=
  [48 + n / 1000, 48 + n / 100 % 10, 48 + n / 10 % 10, 48 + n % 10]

/-- `dt_to_str` (dtwrapper.py 126-127) at format `DTFMT`; code 45 is `-`,
84 is `T`, 58 is `:`. -/
def dtToStr (dt : DT) : Str :=
  pad4 dt.year ++ 45 :: (pad2 dt.month ++ 45 :: (pad2 dt.day ++
    84 :: (pad2 dt.hour ++ 58 :: (pad2 dt.minute ++ 58 :: pad2 dt.second))))

/-- Read exactly two digits. -/
def read2 : Str → Option (Nat × Str)
  | c₁ :: c₂ :: rest =>
      if 48 ≤ c₁ ∧ c₁ ≤ 57 ∧ 48 ≤ c₂ ∧ c₂ ≤ 57 then
        some ((c₁ - 48) * 10 + (c₂ - 48), rest)
      else none
  | _ => none

/-- Read exactly four digits (`strptime` `%Y`). -/
def read4 : Str → Option (Nat × Str)
  | c₁ :: c₂ :: c₃ :: c₄ :: rest =>
      if 48 ≤ c₁ ∧ c₁ ≤ 57 ∧ 48 ≤ c₂ ∧ c₂ ≤ 57 ∧ 48 ≤ c₃ ∧ c₃ ≤ 57 ∧
         48 ≤ c₄ ∧ c₄ ≤ 57 then
        some (((c₁ - 48) * 10 + (c₂ - 48)) * 100 + ((c₃ - 48) * 10 + (c₄ - 48)),
              rest)
      else none
  | _ => none

/-- Match one literal character. -/
def expectC (c : Nat) : Str → Option Str
  | c₀ :: rest => if c₀ = c then some rest else none
  | [] => none

/-- `str_to_dt` (dtwrapper.py 122-123) at format `DTFMT`:
`datetime.strptime(s, "%Y-%m-%dT%H:%M:%S")`, `none` for `ValueError`. -/
def strToDt (s : Str) : Option DT :=
  (read4 s).bind fun p₁ =>
  (expectC 45 p₁.2).bind fun s₂ =>
  (read2 s₂).bind fun p₂ =>
  (expectC 45 p₂.2).bind fun s₃ =>
  (read2 s₃).bind fun p₃ =>
  (expectC 84 p₃.2).bind fun s₄ =>
  (read2 s₄).bind fun p₄ =>
  (expectC 58 p₄.2).bind fun s₅ =>
  (read2 s₅).bind fun p₅ =>
  (expectC 58 p₅.2).bind fun s₆ =>
  (read2 s₆).bind fun p₆ =>
  if p₆.2 = [] then
    let dt : DT := ⟨p₁.1, p₂.1, p₃.1, p₄.1, p₅.1, p₆.1⟩
    if validDT dt then some dt else none
  else none

/-- `datetime` comparison is chronological; on constructor-valid values the
mixed-radix key below orders exactly chronologically. -/
def dtKey (a : DT) : Nat :=
  ((((a.year * 13 + a.month) * 32 + a.day) * 24 + a.hour) * 60 + a.minute) * 60 +
    a.second

def dtLt (a b : DT) : Bool := decide (dtKey a < dtKey b)

def dtGt (a b : DT) : Bool := dtLt b a

/-! ### Duration codec

Python's float arithmetic inside `_td_to_str` is embedded as exact rational
arithmetic over raw `Int` fractions (`Frac`, denominator kept positive, no
normalization — the values never leave a small range, and the concrete
inputs used in the theorems stay far from the rounding boundaries where
binary floats and exact rationals could disagree). -/

/-- An unnormalized fraction with positive denominator. -/
structure Frac where
  num : Int
  den : Int
  deriving DecidableEq, Repr

/-- Build a fraction, normalizing the denominator's sign to positive. -/
def mkF (n d : Int) : Frac := if d < 0 then ⟨-n, -d⟩ else ⟨n, d⟩

def fOfInt (n : Int) : Frac := ⟨n, 1⟩

def fDiv (a b : Frac) : Frac := mkF (a.num * b.den) (a.den * b.num)

def fMul (a b : Frac) : Frac := ⟨a.num * b.num, a.den * b.den⟩

def fSub (a b : Frac) : Frac := ⟨a.num * b.den - b.num * a.den, a.den * b.den⟩

/-- `⌊a⌋` for a positive-denominator fraction. -/
def fFloor (a : Frac) : Int := Int.fdiv a.num a.den

/-- Python `divmod` on floats: floor quotient and remainder. -/
def qdm (a b : Frac) : Int × Frac :=
  let f := fFloor (fDiv a b)
  (f, fSub a (fMul (fOfInt f) b))

/-- Python `int()` on a float: truncation toward zero. -/
def intTrunc (q : Frac) : Int :=
  if q.num < 0 then -fFloor ⟨-q.num, q.den⟩ else fFloor q

/-- Unpadded decimal rendering of a natural number (f-string `{n}`); the
fuel argument (any value above the digit count) keeps the recursion
structural. -/
def natToStrAux : Nat → Nat → Str
  | 0, _ => []
  | fuel + 1, n =>
      if n < 10 then [48 + n] else natToStrAux fuel (n / 10) ++ [48 + n % 10]

def natToStr (n : Nat) : Str := natToStrAux (n + 1) n

/-- The seven unit values produced inside `_td_to_str` (dtwrapper.py 86-95),
from a fractional day count. -/
def tdParts (daysF : Frac) : Int × Int × Int × Int × Int × Int × Int :=
  let p₁ := qdm daysF (fOfInt 365)
  let p₂ := qdm p₁.2 (mkF 365 12)
  let p₃ := qdm p₂.2 (mkF 365 52)
  let p₄ := qdm p₃.2 (fOfInt 1)
  let p₅ := qdm (fMul p₄.2 (fOfInt 24)) (fOfInt 1)
  let p₆ := qdm (fMul p₅.2 (fOfInt 60)) (fOfInt 1)
  (p₁.1, p₂.1, p₃.1, p₄.1, p₅.1, p₆.1, intTrunc (fMul p₆.2 (fOfInt 60)))

/-- String assembly of `_td_to_str` (dtwrapper.py 97-114); codes: `P` 80,
`Y` 89, `M` 77, `W` 87, `D` 68, `T` 84, `H` 72, `S` 83. -/
def tdRender (years months weeks days hours minutes seconds : Int) : Str :=
  [80] ++
  (if years > 0 then natToStr years.toNat ++ [89] else []) ++
  (if months > 0 then natToStr months.toNat ++ [77] else []) ++
  (if weeks > 0 then natToStr weeks.toNat ++ [87] else []) ++
  (if days > 0 then natToStr days.toNat ++ [68] else []) ++
  (if hours > 0 ∨ minutes > 0 ∨ seconds > 0 then
    [84] ++
    (if hours > 0 then natToStr hours.toNat ++ [72] else []) ++
    (if minutes > 0 then natToStr minutes.toNat ++ [77] else []) ++
    (if seconds > 0 then natToStr seconds.toNat ++ [83] else [])
  else [])

/-- `td_to_str` (dtwrapper.py 117-119) on a timedelta of `t` whole seconds:
`td.days + td.seconds / 86400 = t / 86400`. -/
def tdToStr (t : Int) : Str :=
  let p := tdParts (mkF t 86400)
  tdRender p.1 p.2.1 p.2.2.1 p.2.2.2.1 p.2.2.2.2.1 p.2.2.2.2.2.1 p.2.2.2.2.2.2

/-- Greedy run of leading digits (regex `\d+`), `none` when there is none. -/
def readDigits (s : Str) : Option (Nat × Str) :=
  match s with
  | c :: _ =>
      if 48 ≤ c ∧ c ≤ 57 then some (go 0 s) else none
  | [] => none
where
  go (acc : Nat) : Str → Nat × Str
    | c :: r => if 48 ≤ c ∧ c ≤ 57 then go (acc * 10 + (c - 48)) r else (acc, c :: r)
    | [] => (acc, [])

/-- One optional component `(?:(\d+)X)?` of `DURATION_RE`: a digit run
followed by the unit letter, else 0 with the input unconsumed. -/
def tryComp (letter : Nat) (s : Str) : Nat × Str :=
  match readDigits s with
  | some (n, c :: r) => if c = letter then (n, r) else (0, s)
  | _ => (0, s)

/-- `re.match(DURATION_RE, s)`: the parsed `(years, months, weeks, days,
hours, minutes, seconds)`, `none` when the leading `P` is missing (then
`str_to_td` crashes on `match.group`).  Trailing input is ignored, as with
`re.match`. -/
def parseDuration (s : Str) :
    Option (Nat × Nat × Nat × Nat × Nat × Nat × Nat) :=
  match expectC 80 s with
  | none => none
  | some s₀ =>
      let y := tryComp 89 s₀
      let mo := tryComp 77 y.2
      let w := tryComp 87 mo.2
      let d := tryComp 68 w.2
      match expectC 84 d.2 with
      | none => some (y.1, mo.1, w.1, d.1, 0, 0, 0)
      | some sT =>
          let h := tryComp 72 sT
          let mi := tryComp 77 h.2
          let sec := tryComp 83 mi.2
          some (y.1, mo.1, w.1, d.1, h.1, mi.1, sec.1)

/-- `date(y, m, d).toordinal()`: days since 0001-01-01 (which is day 1). -/
def toOrdinal (y m d : Nat) : Nat :=
  let yb := y - 1
  let daysBeforeYear := 365 * yb + yb / 4 - yb / 100 + yb / 400
  let daysBeforeMonth :=
    (List.range (m - 1)).foldl (fun acc i => acc + daysInMonth y (i + 1)) 0
  daysBeforeYear + daysBeforeMonth + d

/-- `_str_to_td` (dtwrapper.py 73-77): every parsed group is incremented,
weeks are folded into days at 7 days each, and the result is
`datetime(y+1, mo+1, d + 7w + 8, h+1, mi+1, s+1) - datetime(1, 1, 8, 1, 1, 1)`
— `none` when the `datetime` constructor raises `ValueError`.  The result is
the timedelta's total seconds. -/
def strToTd (s : Str) : Option Int :=
  (parseDuration s).bind fun g =>
  let y := g.1 + 1
  let mo := g.2.1 + 1
  let d := g.2.2.2.1 + 7 * (g.2.2.1 + 1) + 1
  let h := g.2.2.2.2.1 + 1
  let mi := g.2.2.2.2.2.1 + 1
  let sec := g.2.2.2.2.2.2 + 1
  if validDT ⟨y, mo, d, h, mi, sec⟩ then
    some (((toOrdinal y mo d : Int) - 8) * 86400 +
          ((h : Int) - 1) * 3600 + ((mi : Int) - 1) * 60 + ((sec : Int) - 1))
  else none

end DtCodec

/-! ## Coverage diff (`server/routines/diff.py`)

Coverage structures map schema name → table name → `{columns, date_range}`.
The result structures are plain nested dicts: schema name → table name →
a dict that may gain `"columns"` and `"date_range"` entries.  The source
mutates them with `missing[schema_name][table_name]["columns"] = v`, which
raises `KeyError` when `schema_name` (or `table_name`) is absent — embedded
via `Except`.  Iteration over `set(chain(a.keys(), b.keys()))` has
unspecified order in Python; it is embedded as first-occurrence
deduplication of the concatenated key lists (the claims' inputs have a
single schema and table, where order is immaterial).  `diff` itself
(diff.py 109-113) passes its arguments *swapped* into the helpers, whose
parameters are named `(expected, actual)`; its caller (`run.py 14`) passes
`(actual_db_struct, expected_db_struct)`, swapping once more. -/

namespace CovDiff

open DtCodec

/-- One table's stored coverage: column names and `(min_date, max_date)`
(as wire strings, absent dates as `none`). -/
structure TableCov where
  columns : List String
  dateRange : Option Str × Option Str
  deriving DecidableEq, Repr

abbrev TableDict := List (String × TableCov)

abbrev Coverage := List (String × TableDict)

/-- A value stored under `"start"`/`"end"` in a result `date_range` dict:
missing/orphaned entries hold a pair of date strings (either may be `None`),
common entries hold the single shared date string. -/
inductive RVal
  | pair (a b : Option Str)
  | single (s : Str)
  deriving DecidableEq, Repr

/-- A per-table result dict: starts empty (`{}`), may gain `"columns"` and
`"date_range"` entries. -/
structure DEntry where
  columns : Option (List String) := none
  range : Option (Option RVal × Option RVal) := none
  deriving DecidableEq, Repr

abbrev DMap := List (String × List (String × DEntry))

/-- Python string truthiness of an optional date string. -/
def truthyS : Option Str → Bool
  | none => false
  | some [] => false
  | some (_ :: _) => true

/-- `_contrast_keys` (diff.py 6-11) at the schema level: basis keys absent
from `other`, each mapped to an empty dict. -/
def contrastS (basis other : Coverage) : DMap :=
  basis.filterMap (fun p => if dictHas other p.1 then none else some (p.1, []))

/-- `_compare_keys` (diff.py 14-19) at the schema level. -/
def compareS (basis other : Coverage) : DMap :=
  basis.filterMap (fun p => if dictHas other p.1 then some (p.1, []) else none)

/-- `_contrast_keys` at the table level. -/
def contrastT (basis other : TableDict) : List (String × DEntry) :=
  basis.filterMap (fun p => if dictHas other p.1 then none else some (p.1, {}))

/-- `_compare_keys` at the table level. -/
def compareT (basis other : TableDict) : List (String × DEntry) :=
  basis.filterMap (fun p => if dictHas other p.1 then some (p.1, {}) else none)

/-- `set(chain(a, b))` iteration, embedded as first-occurrence dedup. -/
def dedupKeys (l : List String) : List String :=
  l.foldl (fun acc k => if acc.contains k then acc else acc ++ [k]) []

/-- `_compare_schema` (diff.py 22-26). -/
def compareSchema (expected actual : Coverage) : DMap × DMap × DMap :=
  (contrastS expected actual, contrastS actual expected, compareS expected actual)

/-- `_compare_tables` (diff.py 29-44). -/
def compareTables (expected actual : Coverage) (missing orphaned common : DMap) :
    DMap × DMap × DMap :=
  (dedupKeys (expected.map Prod.fst ++ actual.map Prod.fst)).foldl
    (fun acc s =>
      let et := (dictGet expected s).getD []
      let atv := (dictGet actual s).getD []
      let mt := contrastT et atv
      let ot := contrastT atv et
      let ct := compareT et atv
      (if mt.isEmpty then acc.1 else dictSet acc.1 s mt,
       if ot.isEmpty then acc.2.1 else dictSet acc.2.1 s ot,
       if ct.isEmpty then acc.2.2 else dictSet acc.2.2 s ct))
    (missing, orphaned, common)

/-- `str_to_dt` as used by the diff: a parse failure is a `ValueError`. -/
def strToDtE (s : Str) : Except String DT :=
  match strToDt s with
  | some dt => .ok dt
  | none => .error "ValueError: time data does not match format"

/-- `d[s][t]["columns"] = v` / `d[s][t]["date_range"] = v`: `KeyError` when
the schema or table entry is absent. -/
def nestedMod (m : DMap) (s t : String) (f : DEntry → DEntry) :
    Except String DMap :=
  match dictGet m s with
  | none => .error ("KeyError: " ++ s)
  | some td =>
      match dictGet td t with
      | none => .error ("KeyError: " ++ t)
      | some e => .ok (dictSet m s (dictSet td t (f e)))

/-- The start-side of the date-range comparison (diff.py 78-87): returns
`(orphaned_start, missing_start, common_start)`. -/
def startDiff (es asv : Option Str) :
    Except String (Option RVal × Option RVal × Option RVal) :=
  if truthyS es then
    if truthyS asv then do
      let de ← strToDtE (es.getD [])
      let da ← strToDtE (asv.getD [])
      if dtLt de da then pure (none, some (.pair es asv), none)
      else do
        let de₂ ← strToDtE (es.getD [])
        let da₂ ← strToDtE (asv.getD [])
        if dtGt de₂ da₂ then pure (some (.pair asv es), none, none)
        else pure (none, none, some (.single (es.getD [])))
    else pure (none, some (.pair es none), none)
  else pure (none, none, none)

/-- The end-side of the date-range comparison (diff.py 88-97): returns
`(orphaned_end, missing_end, common_end)`; note the tuple orders
`missing_end = (actual_end, expected_end)` and
`orphaned_end = (expected_end, actual_end)`. -/
def endDiff (ee aev : Option Str) :
    Except String (Option RVal × Option RVal × Option RVal) :=
  if truthyS ee then
    if truthyS aev then do
      let de ← strToDtE (ee.getD [])
      let da ← strToDtE (aev.getD [])
      if dtGt de da then pure (none, some (.pair aev ee), none)
      else do
        let de₂ ← strToDtE (ee.getD [])
        let da₂ ← strToDtE (aev.getD [])
        if dtLt de₂ da₂ then pure (some (.pair ee aev), none, none)
        else pure (none, none, some (.single (ee.getD [])))
    else pure (none, some (.pair none ee), none)
  else pure (none, none, none)

/-- The per-table body of `_compare_columns_and_dates` (diff.py 56-104). -/
def tableBody (expSch actSch : TableDict) (s t : String)
    (acc : DMap × DMap × DMap) : Except String (DMap × DMap × DMap) := do
  let (missing, orphaned, common) := acc
  let et := (dictGet expSch t).getD ⟨[], (none, none)⟩
  let atv := (dictGet actSch t).getD ⟨[], (none, none)⟩
  let missingCols := et.columns.filter (fun c => !(atv.columns.contains c))
  let orphanedCols := atv.columns.filter (fun c => !(et.columns.contains c))
  let commonCols := et.columns.filter (fun c => atv.columns.contains c)
  let missing ← if missingCols.isEmpty then pure missing
    else nestedMod missing s t (fun e => { e with columns := some missingCols })
  let orphaned ← if orphanedCols.isEmpty then pure orphaned
    else nestedMod orphaned s t (fun e => { e with columns := some orphanedCols })
  let common ← if commonCols.isEmpty then pure common
    else nestedMod common s t (fun e => { e with columns := some commonCols })
  let sd ← startDiff et.dateRange.1 atv.dateRange.1
  let ed ← endDiff et.dateRange.2 atv.dateRange.2
  let (os, ms, cs) := (sd.1, sd.2.1, sd.2.2)
  let (oe, me, ce) := (ed.1, ed.2.1, ed.2.2)
  let orphaned ← if os.isSome || oe.isSome then
      nestedMod orphaned s t (fun e => { e with range := some (os, oe) })
    else pure orphaned
  let missing ← if ms.isSome || me.isSome then
      nestedMod missing s t (fun e => { e with range := some (ms, me) })
    else pure missing
  let common ← if cs.isSome || ce.isSome then
      nestedMod common s t (fun e => { e with range := some (cs, ce) })
    else pure common
  pure (missing, orphaned, common)

/-- `_compare_columns_and_dates` (diff.py 47-106). -/
def compareColumnsAndDates (expected actual : Coverage)
    (missing orphaned common : DMap) : Except String (DMap × DMap × DMap) :=
  (dedupKeys (expected.map Prod.fst ++ actual.map Prod.fst)).foldlM
    (fun acc s =>
      let expSch := (dictGet expected s).getD []
      let actSch := (dictGet actual s).getD []
      (dedupKeys (expSch.map Prod.fst ++ actSch.map Prod.fst)).foldlM
        (fun acc2 t => tableBody expSch actSch s t acc2) acc)
    (missing, orphaned, common)

/-- `diff` (diff.py 109-113): note the swapped argument order at each
helper call (`_compare_schema(actual, expected)` etc.). -/
def diff (expected actual : Coverage) : Except String (DMap × DMap × DMap) :=
  let r₁ := compareSchema actual expected
  let r₂ := compareTables actual expected r₁.1 r₁.2.1 r₁.2.2
  compareColumnsAndDates actual expected r₂.1 r₂.2.1 r₂.2.2

/-- Spec scenario: template coverage `[2020-01-01, 2023-12-31]`. -/
def expectedCov : Coverage :=
  [("s", [("t", ⟨["date", "value"],
    (some (ofString "2020-01-01T00:00:00"),
     some (ofString "2023-12-31T00:00:00"))⟩)])]

/-- Spec scenario: stored coverage `[2021-01-01, 2023-06-30]`. -/
def actualCov : Coverage :=
  [("s", [("t", ⟨["date", "value"],
    (some (ofString "2021-01-01T00:00:00"),
     some (ofString "2023-06-30T00:00:00"))⟩)])]

/-- A pair differing only in columns: desired has `a, b`, storage has `a`. -/
def expectedCov₂ : Coverage := [("s2", [("t2", ⟨["a", "b"], (none, none)⟩)])]

def actualCov₂ : Coverage := [("s2", [("t2", ⟨["a"], (none, none)⟩)])]

end CovDiff

/-! ## Server pipeline (`server/bases/Server.py`)

```python
async def cycle(self):
    try:
        request = self._request_queue.get_nowait()
        vendor = self.vendors[request.vendor]
        fn = vendor[request.endpoint]
        response = await fn(vendor.app, request, vendor.context)
        if fn.formatter:
            response = fn.formatter(request, response)
            if isinstance(response, Awaitable):
                response = await response
        await self.responses.set(key=request.corr_id, value=response)
    except asyncio.QueueEmpty:
        await asyncio.sleep(LogicMixin.LONG_CYCLE_MS / 1e3)
    except Exception as e:
        LOGGER.error(f"Error processing request: {e}")
        raise e  # TODO: error handling

async def _handle_get(self, request):
    request_js = await request.json()
    corr_id = request_js.get("corr_id", None)
    if corr_id:
        if corr_id in self.responses:
            response = await self.responses.pop(corr_id)
            return web.json_response(response.js())
        else:
            return web.Response(status=404)
    else:
        return web.json_response({"pending_requests": self.requests.qsize(),
                                  "pending_responses": len(self.responses)})
```

`_handler` wraps both handlers in `try: ... except Exception as e:
return web.Response(status=500, text=str(e))`.  Server.py imports
`hedgepy.common.bases.API`, whose `Response` class (API.py 160-176) defines
`to_js` and `from_js` but *no* method `js` — attribute lookup on
`response.js` is embedded through the class's attribute table.  The getter
is embedded as `Request → Except String Response` (exception or result),
the response store as a corr-id-keyed assoc list. -/

namespace Pipeline

abbrev Store := List (Option Nat × Response)

/-- Python `dict.pop(k)` (the binding is removed). -/
def dictRemove {K V : Type} [DecidableEq K] (d : List (K × V)) (k : K) :
    List (K × V) :=
  match d with
  | [] => []
  | (k₀, v₀) :: rest =>
      if k₀ = k then rest else (k₀, v₀) :: dictRemove rest k

/-- Outcome of one `Server.cycle`. -/
inductive CycleOutcome
  | stored
  | sleptEmpty
  | raised (e : String)
  deriving DecidableEq, Repr

/-- `Server.cycle` (Server.py 164-185): dequeue, dispatch, format, store; an
empty queue sleeps; any other exception is logged and *re-raised* with the
store untouched. -/
def cycle (fn : Request → Except String Response)
    (fmt : Option (Request → Response → Response))
    (queue : List Request) (store : Store) :
    CycleOutcome × List Request × Store :=
  match queue with
  | [] => (.sleptEmpty, [], store)
  | req :: rest =>
      match fn req with
      | .error e => (.raised e, rest, store)
      | .ok resp =>
          let resp := match fmt with
            | some f => f req resp
            | none => resp
          (.stored, rest, dictSet store req.corr_id resp)

/-- Attributes of the imported `Response` class (API.py 160-176): the two
dataclass fields and its two methods. -/
def responseAttrs : List String := ["request", "data", "to_js", "from_js"]

/-- Python attribute lookup on a `Response` instance. -/
def getattrResponse (name : String) : Except String Unit :=
  if responseAttrs.contains name then .ok ()
  else .error ("AttributeError: " ++ name)

/-- Body of an HTTP reply from the GET handler. -/
inductive GetBody
  | payload (r : Response)
  | counts (pendingRequests pendingResponses : Nat)
  | errText (s : String)
  | empty
  deriving DecidableEq, Repr

/-- Python truthiness of the decoded `corr_id` (absent or 0 are falsy). -/
def truthyCid : Option Nat → Bool
  | none => false
  | some 0 => false
  | some (_ + 1) => true

/-- `Server._handle_get` (Server.py 187-203) wrapped by `_handler`
(Server.py 121-131): returns `(status, body)` and the store after the call.
The `pop` happens before the `response.js()` attribute lookup, so the entry
is gone even when the lookup raises and `_handler` answers 500. -/
def handleGet (queue : List Request) (store : Store) (corrId : Option Nat) :
    (Nat × GetBody) × Store :=
  if truthyCid corrId then
    match dictGet store corrId with
    | some resp =>
        let store' := dictRemove store corrId
        match getattrResponse "js" with
        | .ok _ => ((200, .payload resp), store')
        | .error e => ((500, .errText e), store')
    | none => ((404, .empty), store)
  else ((200, .counts queue.length store.length), store)

/-- A getter that raises (the C4 failing input). -/
def fnRaises : Request → Except String Response := fun _ => .error "boom"

/-- The request of the C4/C5 scenarios, with corr id 7. -/
def req₇ : Request :=
  { vendor := "v", endpoint := "e",
    params := { start := 0, stop := some 1, resolution := 1, symbol := "x" },
    corr_id := some 7 }

/-- A stored response under corr id 7. -/
def resp₇ : Response := { request := req₇, data := some [[42]] }

end Pipeline

/-! ## IBKR TCP client state machine (`common/vendors/ibkr/bases.py`)

```python
class BaseClient(EWrapper, EClient):
    DISCONNECTED, CONNECTING, CONNECTED = range(3)
    MAX_RETRIES = 100

    async def handshake(self, retry=0):
        msg = str.encode("API\0", "ascii") + comm.make_msg(...)
        self.conn.write(msg)
        try:
            _ = await self.conn._reader.readuntil(3 * FIELD_SEP)
            server_version_msg = await self.conn._reader.readuntil(FIELD_SEP)
            server_version = str(server_version_msg).split("\\")[1][-3:]
            conn_time_msg = await self.conn._reader.readuntil(FIELD_SEP)
            conn_time = str(conn_time_msg).split("\\")[0]
        except (asyncio.TimeoutError, asyncio.IncompleteReadError, BrokenPipeError):
            if retry < BaseClient.MAX_RETRIES:
                await asyncio.sleep(0.1)
                await self.handshake(retry=retry+1)
            else:
                raise ConnectionError("Handshake failed.")
        self.connTime = conn_time
        self.serverVersion_ = int(server_version)

    async def connect(self):
        await self.conn.connect()
        self.connState = BaseClient.CONNECTING
        await self.handshake()
        self.connState = BaseClient.CONNECTED
        ...  # START_API write, connectAck
```

`__init__` sets `connState = DISCONNECTED`.  One handshake attempt's socket
reads are abstracted to their outcome: either the parsed server version and
connection time, or a timeout/partial read.  Note that after a recursive
retry *succeeds*, the outer frame still executes `self.connTime = conn_time`
with its own `conn_time` never assigned, raising `UnboundLocalError`; only a
first-attempt success completes cleanly. -/

namespace Broker

def DISCONNECTED : Nat := 0

def CONNECTING : Nat := 1

def CONNECTED : Nat := 2

/-- `DISCONNECTED, CONNECTING, CONNECTED = range(3)` — the class defines
exactly these three connection states. -/
def stateConstants : List Nat := [DISCONNECTED, CONNECTING, CONNECTED]

def MAX_RETRIES : Nat := 100

/-- Outcome of one handshake attempt's reads. -/
inductive ReadOutcome
  | ok (serverVersion : Int) (connTime : String)
  | timeout
  | incomplete
  deriving DecidableEq, Repr

/-- Result of `handshake`: a clean first-attempt success recording the server
version; `ConnectionError` after the retry budget is exhausted; or the
`UnboundLocalError` hit by an outer frame after a retried attempt succeeded.
Each carries the number of 100 ms backoff sleeps performed. -/
inductive HsOutcome
  | ok (sv : Int) (ct : String) (sleeps : Nat)
  | connectionError (sleeps : Nat)
  | unboundLocal (sleeps : Nat)
  deriving DecidableEq, Repr

/-- `handshake(retry = idx)` with `budget = MAX_RETRIES - idx` retries left;
`attempts i` is the outcome of attempt `i`'s reads. -/
def handshakeFrom (attempts : Nat → ReadOutcome) : Nat → Nat → HsOutcome
  | budget, idx =>
      match attempts idx with
      | .ok sv ct => .ok sv ct 0
      | _ =>
          match budget with
          | 0 => .connectionError 0
          | b + 1 =>
              match handshakeFrom attempts b (idx + 1) with
              | .ok _ _ s => .unboundLocal (s + 1)
              | .connectionError s => .connectionError (s + 1)
              | .unboundLocal s => .unboundLocal (s + 1)

/-- `handshake()` as called from `connect` (retry 0, full budget). -/
def handshake (attempts : Nat → ReadOutcome) : HsOutcome :=
  handshakeFrom attempts MAX_RETRIES 0

/-- Result of `connect`: the sequence of `connState` values taken, plus the
recorded server version and connection time on success, or the escaping
exception. -/
inductive ConnectOutcome
  | connected (states : List Nat) (serverVersion : Int) (connTime : String)
  | failed (states : List Nat) (err : String)
  deriving DecidableEq, Repr

/-- `connect` (bases.py 170-196): `connState` starts at `DISCONNECTED`
(`__init__`), becomes `CONNECTING` after the TCP open, and `CONNECTED` after
the handshake; a handshake exception escapes with the state still
`CONNECTING`. -/
def connect (attempts : Nat → ReadOutcome) : ConnectOutcome :=
  match handshake attempts with
  | .ok sv ct _ => .connected [DISCONNECTED, CONNECTING, CONNECTED] sv ct
  | .connectionError _ =>
      .failed [DISCONNECTED, CONNECTING] "ConnectionError: Handshake failed."
  | .unboundLocal _ =>
      .failed [DISCONNECTED, CONNECTING] "UnboundLocalError: conn_time"

/-- The state trace of a connect outcome. -/
def statesOf : ConnectOutcome → List Nat
  | .connected states _ _ => states
  | .failed states _ => states

/-- The backoff-sleep count of a handshake outcome. -/
def hsSleeps : HsOutcome → Nat
  | .ok _ _ s => s
  | .connectionError s => s
  | .unboundLocal s => s

/-- A mock upstream that answers the first handshake read with version 176. -/
def okAttempts : Nat → ReadOutcome := fun _ => .ok 176 "20240101 12:00:00 EST"

end Broker

/-! ## Planner endpoint selection (`server/routines/plan.py`)

```python
def _locate_endpoint(vendor, columns):
    endpoint = None
    for endpoint_name, endpoint in vendor.getters.items():
        endpoint_columns = list(zip(*endpoint.returns))[0]
        if all(column in endpoint_columns for column in columns):
            endpoint = endpoint_name
            break
    if not endpoint:
        return _locate_endpoints(vendor, columns)
    else:
        return {endpoint: columns}
```

The loop variable `endpoint` is rebound to each *getter object* at every
iteration, so after a fully unsuccessful loop it holds the last getter
object (truthy), not `None`.  A getter is embedded as its name together
with the field names of its `returns` tuple; the value the `endpoint`
variable can hold is `EPVal` (None, a name string, or the i-th getter
object), and result-dict keys are `String ⊕ Nat` (endpoint name, or getter
object by index).  In `_locate_endpoints`, `_matches` keeps only endpoints
whose columns contain *every* remaining column (its `# no extras` comment
notwithstanding), and `_match` greedily picks by intersection size while
shrinking the remaining set mid-loop. -/

namespace Plan

/-- The Python `endpoint` variable: `None`, an endpoint-name string, or the
`i`-th getter object. -/
inductive EPVal
  | noneV
  | nameV (s : String)
  | objV (i : Nat)
  deriving DecidableEq, Repr

/-- Python truthiness of the `endpoint` variable. -/
def epTruthy : EPVal → Bool
  | .noneV => false
  | .nameV s => !s.isEmpty
  | .objV _ => true

abbrev Getters := List (String × List String)

abbrev EPDict := List ((String ⊕ Nat) × List String)

/-- The `for endpoint_name, endpoint in vendor.getters.items()` loop of
`_locate_endpoint` (plan.py 49-54), threading the rebound loop variable. -/
def locateLoop (columns : List String) : List (Nat × String × List String) →
    EPVal → EPVal
  | [], acc => acc
  | (i, n, cols) :: rest, _ =>
      if columns.all (fun c => cols.contains c) then .nameV n
      else locateLoop columns rest (.objV i)

/-- `_matches` (plan.py 15-21): endpoints whose returns contain every one of
`columns`, mapped to the matched columns. -/
def matchesFn (getters : Getters) (columns : List String) : Getters :=
  getters.filterMap (fun g =>
    if (columns.filter (fun c => !g.2.contains c)).isEmpty then
      some (g.1, columns.filter (fun c => g.2.contains c))
    else none)

/-- `_match` (plan.py 23-30): pick the best-scoring endpoint, shrinking
`remaining_columns` inside the loop as the source does (set-intersection
size is taken on deduplicated column names). -/
def matchFn (matched : Getters) (remaining : List String) :
    Option String × List String :=
  let r := matched.foldl
    (fun (acc : Option String × Nat × List String) m =>
      let score := (CovDiff.dedupKeys (acc.2.2.filter (fun c => m.2.contains c))).length
      if score > acc.2.1 then
        (some m.1, score, acc.2.2.filter (fun c => !m.2.contains c))
      else acc)
    (none, 0, remaining)
  (r.1, r.2.2)

/-- The `while len(remaining_columns) > 0` loop of `_locate_endpoints`
(plan.py 34-40).  The fuel (`columns.length + 1`) is never exhausted: an
iteration either breaks or — because `_matches` keeps only endpoints
covering every remaining column — empties `remaining`. -/
def locateEndpointsLoop (getters : Getters) :
    Nat → List String → EPDict → EPDict × List String
  | 0, remaining, endpoints => (endpoints, remaining)
  | fuel + 1, remaining, endpoints =>
      if remaining.isEmpty then (endpoints, remaining)
      else
        let mtc := matchesFn getters remaining
        let mr := matchFn mtc remaining
        if mr.2.length = remaining.length then (endpoints, mr.2)
        else
          match mr.1 with
          | some s =>
              locateEndpointsLoop getters fuel mr.2
                (dictSet endpoints (.inl s) ((dictGet mtc s).getD []))
          | none => (endpoints, mr.2)

/-- `_locate_endpoints` (plan.py 14-45). -/
def locateEndpoints (getters : Getters) (columns : List String) :
    Except String EPDict :=
  let r := locateEndpointsLoop getters (columns.length + 1) columns []
  if r.2.isEmpty then .ok r.1
  else .error "ValueError: Could not locate endpoints for columns"

/-- `_locate_endpoint` (plan.py 48-58). -/
def locateEndpoint (getters : Getters) (columns : List String) :
    Except String EPDict :=
  let ep := locateLoop columns (getters.enum.map (fun p => (p.1, p.2.1, p.2.2)))
    .noneV
  match ep with
  | .noneV => locateEndpoints getters columns
  | .nameV s =>
      if s.isEmpty then locateEndpoints getters columns
      else .ok [(.inl s, columns)]
  | .objV i => .ok [(.inr i, columns)]

/-- Two endpoints neither of which covers `{a, c}` alone but which do so
together. -/
def getters₇ : Getters := [("e1", ["a", "b"]), ("e2", ["b", "c"])]

/-- Two covering endpoints: the first with two extra fields, the second
exact. -/
def getters₈ : Getters := [("big", ["a", "b", "c"]), ("exact", ["a"])]

end Plan

/-! ## `Context` immutability (API.py 46-71)

```python
class Context:
    def __init__(self, static_vars=None, derived_vars=None):
        if static_vars:
            for key, value in static_vars.items():
                setattr(self, key, value)
            if derived_vars:
                for key, value in derived_vars.items():
                    if callable(value):
                        setattr(self, key, value(self))
                    else:
                        raise ValueError(...)
        elif derived_vars:
            raise ValueError("Derived variables require static variables")
        self.__setattr__ = self._immutable
        self.__delattr__ = self._immutable

    @staticmethod
    def _immutable(*args, **kwargs):
        raise AttributeError("Context is immutable")
```

CPython resolves special methods on the *type*, not the instance:
`obj.attr = v` invokes `type(obj).__setattr__`.  `Context` defines no
class-level `__setattr__`/`__delattr__` — the two assignments at the end of
`__init__` merely store entries named `"__setattr__"`/`"__delattr__"` in the
instance `__dict__`, which attribute assignment never consults.  The
instance is embedded as its `__dict__` (an assoc list), the class by its
attribute table. -/

namespace Ctx

inductive Val
  | int (i : Int)
  | str (s : String)
  | method (name : String)
  deriving DecidableEq, Repr

abbrev Attrs := List (String × Val)

/-- The class-level attributes of `Context`: `__init__` and the staticmethod
`_immutable` — and in particular no `__setattr__` or `__delattr__`. -/
def contextClassAttrs : List String := ["__init__", "_immutable"]

/-- `Context.__init__`: set the static variables, evaluate each derived
variable once against the attributes built so far, then store the two
instance entries named `"__setattr__"` and `"__delattr__"`. -/
def contextInit (staticVars : Attrs)
    (derivedVars : List (String × (Attrs → Val))) : Except String Attrs :=
  match staticVars with
  | [] =>
      if derivedVars.isEmpty then
        .ok [("__setattr__", .method "_immutable"),
             ("__delattr__", .method "_immutable")]
      else .error "ValueError: Derived variables require static variables"
  | _ =>
      let attrs := staticVars.foldl (fun acc kv => dictSet acc kv.1 kv.2) []
      let attrs := derivedVars.foldl (fun acc kv => dictSet acc kv.1 (kv.2 acc))
        attrs
      .ok (dictSet (dictSet attrs "__setattr__" (.method "_immutable"))
        "__delattr__" (.method "_immutable"))

inductive SetResult
  | ok (attrs : Attrs)
  | attrError
  deriving DecidableEq, Repr

/-- CPython attribute assignment `obj.name = v`: dispatches to
`type(obj).__setattr__`; `Context` has none, so `object.__setattr__` updates
the instance `__dict__`.  (The instance entry named `"__setattr__"` is never
consulted.) -/
def pySetattr (attrs : Attrs) (name : String) (v : Val) : SetResult :=
  if contextClassAttrs.contains "__setattr__" then .attrError
  else .ok (dictSet attrs name v)

/-- CPython attribute deletion `del obj.name`: dispatches to
`type(obj).__delattr__`; `Context` has none, so `object.__delattr__` removes
the entry from the instance `__dict__` (raising `AttributeError` only when
the attribute is absent). -/
def pyDelattr (attrs : Attrs) (name : String) : SetResult :=
  if contextClassAttrs.contains "__delattr__" then .attrError
  else if dictHas attrs name then .ok (Pipeline.dictRemove attrs name)
  else .attrError

end Ctx

end HedgePy

/-- C2: the sliding-window guarantee fails on the code.  With
`max_requests = 1`, `interval = 1` and three sequential calls entering at
times 0, 0, 1 (a valid sequential trace: each entry is at or after the
previous invocation), the underlying getter is invoked at times 0, 1, 1 —
the window `[1, 2)` contains 2 invocations, exceeding `max_requests = 1`.
Cause: `__call__` consumes (`popleft`) the oldest timestamp instead of
peeking, and appends the pre-sleep entry time, so the second call records
time 0 although it actually ran at time 1. -/
theorem rateLimiter_window_bound_violated :
    HedgePy.RateLimit.sequentialFrom 1 1 [] [0, 0, 1] = true ∧
    HedgePy.RateLimit.run 1 1 [] [0, 0, 1] = [0, 1, 1] ∧
    HedgePy.RateLimit.countWindow (HedgePy.RateLimit.run 1 1 [] [0, 0, 1]) 1 1 = 2 ∧
    2 > 1 := by
  refine ⟨by decide, by decide, by decide, by decide⟩

/-- C1: refuted on the code at a concrete chunked request.  For
`chunk_schedule = {1: 2}` and a request with `[start, end] = [0, 7]`,
resolution 1 and corr id 100, the code computes `n_chunks = 7 // 2 = 3`
(floor, not ceil: the claim's `ceil(7/2) = 4`), dispatches sub-requests with
windows `[0, 2]`, `[3, 5]` and `[9, 5]` — a gap `(2, 3)` of one resolution
between consecutive windows, and a final stub that starts *after* the
requested end 7 and ends at  5, before its own start, because `_chunk` reads
`request_end` one window ahead and `request.params.end` from the last rebound
chunk request — and returns the raw corr-id-keyed dict of sub-responses
(`isSingle = false`), not a single merged `Response` with concatenated data
under the original corr id.  The windows do not partition `[0, 7]` and no
merge happens. -/
theorem timeChunker_scenario_violates_claim :
    HedgePy.Chunk.isSingle
      (HedgePy.Chunk.call [(1, 2)] HedgePy.Chunk.echoTarget 0 0 HedgePy.Chunk.req₁).1
        = false ∧
    HedgePy.Chunk.windows
      (HedgePy.Chunk.chunkedDict
        (HedgePy.Chunk.call [(1, 2)] HedgePy.Chunk.echoTarget 0 0 HedgePy.Chunk.req₁).1)
      = [(0, some 2), (3, some 5), (9, some 5)] ∧
    (HedgePy.Chunk.chunkedDict
      (HedgePy.Chunk.call [(1, 2)] HedgePy.Chunk.echoTarget 0 0 HedgePy.Chunk.req₁).1).map
        Prod.fst = [some 100, some 0, some 1] := by
  refine ⟨by decide, by decide, by decide⟩

/-! ### Codec round-trip lemmas (C8) -/

namespace HedgePy.DtCodec

theorem daysInMonth_le_31 (y m : Nat) : daysInMonth y m ≤ 31 := by
  unfold daysInMonth
  split
  · split <;> omega
  · split <;> omega

theorem expectC_cons (c : Nat) (r : Str) : expectC c (c :: r) = some r := by
  simp [expectC]

theorem read2_pad2 {n : Nat} (h : n < 100) (r : Str) :
    read2 (pad2 n ++ r) = some (n, r) := by
  simp only [pad2, read2, List.cons_append, List.nil_append]
  rw [if_pos]
  · simp only [Option.some.injEq, Prod.mk.injEq]
    exact ⟨by omega, trivial⟩
  · omega

theorem read4_pad4 {n : Nat} (h : n < 10000) (r : Str) :
    read4 (pad4 n ++ r) = some (n, r) := by
  simp only [pad4, read4, List.cons_append, List.nil_append]
  rw [if_pos]
  · simp only [Option.some.injEq, Prod.mk.injEq]
    exact ⟨by omega, trivial⟩
  · omega

/-- The datetime codec round-trips on every expressible value. -/
theorem strToDt_dtToStr {dt : DT} (h : expressible dt = true) :
    strToDt (dtToStr dt) = some dt := by
  have h' : validDT dt = true ∧ 1000 ≤ dt.year := by
    simpa [expressible] using h
  obtain ⟨hv0, hyr⟩ := h'
  have hv := hv0
  simp only [validDT, Bool.and_eq_true, decide_eq_true_eq] at hv
  obtain ⟨⟨⟨⟨⟨⟨⟨⟨h1, h2⟩, h3⟩, h4⟩, h5⟩, h6⟩, h7⟩, h8⟩, h9⟩ := hv
  have hdm := daysInMonth_le_31 dt.year dt.month
  obtain ⟨y, mo, d, hh, mi, s⟩ := dt
  simp only at h1 h2 h3 h4 h5 h6 h7 h8 h9 hdm hyr hv0
  have e4 := read4_pad4 (show y < 10000 by omega)
  have e2a := read2_pad2 (show mo < 100 by omega)
  have e2b := read2_pad2 (show d < 100 by omega)
  have e2c := read2_pad2 (show hh < 100 by omega)
  have e2d := read2_pad2 (show mi < 100 by omega)
  have e2e : read2 (pad2 s) = some (s, []) := by
    simpa using read2_pad2 (show s < 100 by omega) []
  simp only [strToDt, dtToStr, e4, e2a, e2b, e2c, e2d, e2e, expectC_cons,
    Option.some_bind]
  simp [hv0]

end HedgePy.DtCodec

/-- C8 counterexample: the duration codec pair is *not* mutually inverse.
For the well-formed timedelta of 8 days (691200 seconds), `td_to_str` emits
`"P1WT23H32M18S"` (it measures a week as 365/52 days), and `str_to_td` on
that string raises `ValueError` — it maps weeks back to 7 days and then
builds `datetime(..., hour = 23 + 1, ...)`, overflowing the constructor's
hour range — instead of returning the original timedelta. -/
theorem td_codec_roundtrip_fails_at_8_days :
    HedgePy.DtCodec.tdToStr 691200 = HedgePy.DtCodec.ofString "P1WT23H32M18S" ∧
    HedgePy.DtCodec.strToTd (HedgePy.DtCodec.tdToStr 691200) = none := by
  refine ⟨by decide, by decide⟩

/-- C8 (amended): `(dt_to_str, str_to_dt)` round-trip on every datetime
expressible in the `%Y-%m-%dT%H:%M:%S` format; `(td_to_str, str_to_td)`
round-trip only on a restricted domain — here whole-day timedeltas below the
codec's week unit (0 to 7 days) — and not on every well-formed timedelta
(see the counterexample at 8 days). -/
theorem dt_td_codec_roundtrip_amended :
    (∀ dt : HedgePy.DtCodec.DT, HedgePy.DtCodec.expressible dt = true →
      HedgePy.DtCodec.strToDt (HedgePy.DtCodec.dtToStr dt) = some dt) ∧
    (∀ d : Nat, d < 8 →
      HedgePy.DtCodec.strToTd (HedgePy.DtCodec.tdToStr (86400 * d)) =
        some (86400 * d)) := by
  constructor
  · intro dt h
    exact HedgePy.DtCodec.strToDt_dtToStr h
  · decide

/-- Witness for C8 (amended) at the leap-day datetime 2020-02-29T23:59:59 and
at the 7-day timedelta. -/
theorem dt_td_codec_roundtrip_amended_witness :
    HedgePy.DtCodec.expressible ⟨2020, 2, 29, 23, 59, 59⟩ = true ∧
    HedgePy.DtCodec.strToDt (HedgePy.DtCodec.dtToStr ⟨2020, 2, 29, 23, 59, 59⟩) =
      some ⟨2020, 2, 29, 23, 59, 59⟩ ∧
    HedgePy.DtCodec.strToTd (HedgePy.DtCodec.tdToStr (86400 * 7)) =
      some (86400 * 7) :=
  ⟨by decide, dt_td_codec_roundtrip_amended.1 _ (by decide),
   dt_td_codec_roundtrip_amended.2 7 (by decide)⟩

/-- C3: refuted on the code.  On the spec's own planner scenario — desired
coverage `[2020-01-01, 2023-12-31]`, stored coverage
`[2021-01-01, 2023-06-30]` for the same schema `s` and table `t` — `diff`
raises `KeyError` instead of classifying anything, under either argument
order (as its caller passes `(actual, expected)`, and as its own signature
`diff(expected, actual)` reads).  The date-range writer
`missing[schema][table]["date_range"] = ...` requires `missing[schema][table]`
to exist, but a schema/table present in both inputs is never inserted into
`missing` (or `orphaned`), so the claimed `missing.start = (E_s, A_s)` record
is never produced.  (Independently, `diff` forwards its arguments swapped
into helpers whose parameters are named `(expected, actual)`, inverting
Missing and Orphaned for callers that follow the signature.) -/
theorem diff_date_range_raises_keyerror :
    HedgePy.CovDiff.diff HedgePy.CovDiff.actualCov HedgePy.CovDiff.expectedCov =
      .error "KeyError: s" ∧
    HedgePy.CovDiff.diff HedgePy.CovDiff.expectedCov HedgePy.CovDiff.actualCov =
      .error "KeyError: s" := by
  refine ⟨by rfl, by rfl⟩

/-- C10: refuted on the code.  For well-formed coverages that share schema
`s2` and table `t2` and differ only in columns (desired `a, b` vs stored
`a`), `diff` raises `KeyError` instead of returning a
`(missing, orphaned, common)` triple — under either argument order. -/
theorem diff_columns_only_raises_keyerror :
    HedgePy.CovDiff.diff HedgePy.CovDiff.expectedCov₂ HedgePy.CovDiff.actualCov₂ =
      .error "KeyError: s2" ∧
    HedgePy.CovDiff.diff HedgePy.CovDiff.actualCov₂ HedgePy.CovDiff.expectedCov₂ =
      .error "KeyError: s2" := by
  refine ⟨by rfl, by rfl⟩

/-- C4: refuted on the code.  When the dispatched getter raises (here the
exception `"boom"` on the request with corr id 7), `Server.cycle` logs and
*re-raises* (`raise e  # TODO: error handling`, Server.py 185): no Response
with null data and an error tag is stored — the store stays empty — and the
exception propagates out of the cycle (the `run` loop catches only
`KeyboardInterrupt`), so a subsequent GET for corr id 7 keeps answering 404
instead of resolving. -/
theorem cycle_exception_reraised_nothing_stored :
    HedgePy.Pipeline.cycle HedgePy.Pipeline.fnRaises none [HedgePy.Pipeline.req₇] []
      = (.raised "boom", [], []) ∧
    HedgePy.Pipeline.handleGet [] [] (some 7) = ((404, .empty), []) := by
  refine ⟨by rfl, by rfl⟩

/-- C5: refuted on the code.  With a Response stored under corr id 7, a GET
for corr id 7 pops the entry but then calls `response.js()`; the imported
`Response` class has no attribute `js` (only `to_js`), the `AttributeError`
is caught by `_handler`, and the reply is 500 with the error text — not the
claimed 200 with the stored Response.  The entry *is* removed, so a second
identical GET yields 404; a GET with an absent corr id yields 404, and a GET
without a corr id returns the pending-request/pending-response counts. -/
theorem handleGet_returns_500_not_200 :
    HedgePy.Pipeline.handleGet [] [(some 7, HedgePy.Pipeline.resp₇)] (some 7)
      = ((500, .errText "AttributeError: js"), []) ∧
    HedgePy.Pipeline.handleGet [] [] (some 7) = ((404, .empty), []) ∧
    HedgePy.Pipeline.handleGet [] [(some 7, HedgePy.Pipeline.resp₇)] (some 8)
      = ((404, .empty), [(some 7, HedgePy.Pipeline.resp₇)]) ∧
    HedgePy.Pipeline.handleGet [HedgePy.Pipeline.req₇]
        [(some 7, HedgePy.Pipeline.resp₇)] none
      = ((200, .counts 1 1), [(some 7, HedgePy.Pipeline.resp₇)]) := by
  refine ⟨by rfl, by rfl, by rfl, by rfl⟩

/-! ### Broker state machine (C6) -/

namespace HedgePy.Broker

/-- With every attempt timing out, `handshake(idx)` with `budget` retries
left sleeps `budget` times and raises `ConnectionError`. -/
theorem handshakeFrom_all_timeout (attempts : Nat → ReadOutcome)
    (h : ∀ i, attempts i = .timeout) :
    ∀ b idx, handshakeFrom attempts b idx = .connectionError b := by
  intro b
  induction b with
  | zero => intro idx; simp [handshakeFrom, h idx]
  | succ n ih => intro idx; simp [handshakeFrom, h idx, ih (idx + 1)]

/-- A handshake attempt whose reads succeed completes at once, whatever the
retry budget. -/
theorem handshakeFrom_first_ok (attempts : Nat → ReadOutcome) (sv : Int)
    (ct : String) (b idx : Nat) (h : attempts idx = .ok sv ct) :
    handshakeFrom attempts b idx = .ok sv ct 0 := by
  cases b <;> simp [handshakeFrom, h]

end HedgePy.Broker

/-- C6 counterexample: there is no `HANDSHAKING` state to pass through.  On a
successful connect (mock upstream answering the first handshake read with
version 176), the `connState` trace is exactly
`[DISCONNECTED, CONNECTING, CONNECTED]` — three states, while the claimed
pass-through `DISCONNECTED → CONNECTING → HANDSHAKING → CONNECTED` needs
four — and `BaseClient` defines exactly three state constants
(`range(3)`). -/
theorem broker_no_handshaking_state :
    HedgePy.Broker.statesOf (HedgePy.Broker.connect HedgePy.Broker.okAttempts) =
      [HedgePy.Broker.DISCONNECTED, HedgePy.Broker.CONNECTING,
       HedgePy.Broker.CONNECTED] ∧
    (HedgePy.Broker.statesOf
      (HedgePy.Broker.connect HedgePy.Broker.okAttempts)).length = 3 ∧
    HedgePy.Broker.stateConstants.length = 3 := by
  refine ⟨by rfl, by rfl, by rfl⟩

/-- C6 (amended): on a successful connect the client passes through
`DISCONNECTED → CONNECTING → CONNECTED` (there is no `HANDSHAKING` state)
and records the server version; when every handshake read times out or is
partial, it retries with `MAX_RETRIES = 100` backoff sleeps of 100 ms and
then fails with `ConnectionError`. -/
theorem broker_connect_states_and_retries :
    (∀ (attempts : Nat → HedgePy.Broker.ReadOutcome) (sv : Int) (ct : String),
      attempts 0 = .ok sv ct →
      HedgePy.Broker.connect attempts =
        .connected [HedgePy.Broker.DISCONNECTED, HedgePy.Broker.CONNECTING,
          HedgePy.Broker.CONNECTED] sv ct) ∧
    (∀ attempts : Nat → HedgePy.Broker.ReadOutcome,
      (∀ i, attempts i = .timeout) →
      HedgePy.Broker.connect attempts =
        .failed [HedgePy.Broker.DISCONNECTED, HedgePy.Broker.CONNECTING]
          "ConnectionError: Handshake failed." ∧
      HedgePy.Broker.hsSleeps (HedgePy.Broker.handshake attempts) =
        HedgePy.Broker.MAX_RETRIES) := by
  constructor
  · intro attempts sv ct h
    have he := HedgePy.Broker.handshakeFrom_first_ok attempts sv ct
      HedgePy.Broker.MAX_RETRIES 0 h
    simp [HedgePy.Broker.connect, HedgePy.Broker.handshake, he]
  · intro attempts h
    have he := HedgePy.Broker.handshakeFrom_all_timeout attempts h
      HedgePy.Broker.MAX_RETRIES 0
    constructor
    · simp [HedgePy.Broker.connect, HedgePy.Broker.handshake, he]
    · simp [HedgePy.Broker.handshake, he, HedgePy.Broker.hsSleeps]

/-- Witness for C6 (amended): the mock upstream of the spec's handshake
scenario, and an always-timing-out upstream. -/
theorem broker_connect_states_and_retries_witness :
    HedgePy.Broker.okAttempts 0 = .ok 176 "20240101 12:00:00 EST" ∧
    HedgePy.Broker.connect HedgePy.Broker.okAttempts =
      .connected [HedgePy.Broker.DISCONNECTED, HedgePy.Broker.CONNECTING,
        HedgePy.Broker.CONNECTED] 176 "20240101 12:00:00 EST" ∧
    HedgePy.Broker.connect (fun _ => .timeout) =
      .failed [HedgePy.Broker.DISCONNECTED, HedgePy.Broker.CONNECTING]
        "ConnectionError: Handshake failed." :=
  ⟨rfl,
   broker_connect_states_and_retries.1 HedgePy.Broker.okAttempts 176
     "20240101 12:00:00 EST" rfl,
   (broker_connect_states_and_retries.2 (fun _ => .timeout) (fun _ => rfl)).1⟩

/-- C7: refuted on the code.  (i) With getters `e1 ↦ (a, b)` and
`e2 ↦ (b, c)` and required columns `[a, c]`, no single endpoint covers; the
claim says the planner greedily selects endpoints until coverage or raises —
but because the loop variable `endpoint` is rebound to each getter *object*,
after the unsuccessful loop it holds the last getter object (truthy), so
`if not endpoint` is false and `_locate_endpoint` returns a dict keyed by
that getter object with the still-uncovered columns; no exception, no
coverage.  (ii) Even called directly, `_locate_endpoints` raises instead of
greedily combining `e1` and `e2`: its `_matches` keeps only endpoints
covering *every* remaining column, so no progress is ever possible when no
single endpoint covers.  (iii) With getters `big ↦ (a, b, c)` (two extra
fields) and `exact ↦ (a)` and required `[a]`, the code picks `big` — the
first in registration order — not the fewest-extras endpoint `exact`. -/
theorem locate_endpoint_violates_claim :
    HedgePy.Plan.locateEndpoint HedgePy.Plan.getters₇ ["a", "c"] =
      .ok [(Sum.inr 1, ["a", "c"])] ∧
    HedgePy.Plan.locateEndpoints HedgePy.Plan.getters₇ ["a", "c"] =
      .error "ValueError: Could not locate endpoints for columns" ∧
    HedgePy.Plan.locateEndpoint HedgePy.Plan.getters₈ ["a"] =
      .ok [(Sum.inl "big", ["a"])] := by
  refine ⟨by rfl, by rfl, by rfl⟩

/-- C9: refuted on the code.  Constructing `Context(static_vars={"a": 1})`
stores `a` and the two instance entries named `__setattr__`/`__delattr__`;
but CPython dispatches attribute assignment through the *type*, which has no
`__setattr__` hook, so `ctx.a = 2` succeeds and changes the attribute (no
`AttributeError`), and `del ctx.a` succeeds and removes it. -/
theorem context_mutation_succeeds :
    HedgePy.Ctx.contextInit [("a", .int 1)] [] =
      .ok [("a", .int 1), ("__setattr__", .method "_immutable"),
           ("__delattr__", .method "_immutable")] ∧
    HedgePy.Ctx.pySetattr
      [("a", .int 1), ("__setattr__", .method "_immutable"),
       ("__delattr__", .method "_immutable")] "a" (.int 2) =
      .ok [("a", .int 2), ("__setattr__", .method "_immutable"),
           ("__delattr__", .method "_immutable")] ∧
    HedgePy.Ctx.pyDelattr
      [("a", .int 1), ("__setattr__", .method "_immutable"),
       ("__delattr__", .method "_immutable")] "a" =
      .ok [("__setattr__", .method "_immutable"),
           ("__delattr__", .method "_immutable")] := by
  refine ⟨by rfl, by rfl, by rfl⟩
